import Mathlib

set_option maxRecDepth 8000

deriving instance DecidableEq for Except

namespace GSS

/-- A cell of the survey table after CSV load: either an explicit missing
marker (pandas NaN), a string payload, or a numeric payload. -/
inductive Cell where
  | missing : Cell
  | str : String → Cell
  | num : ℚ → Cell
deriving DecidableEq

/-- Whether a cell is the missing marker (pandas NaN). -/
def Cell.isMissing : Cell → Bool
  | Cell.missing => true
  | _ => false

/-- The na_values list passed to read_csv (src/app.py lines 17-18): raw
strings treated as missing on load, on top of the defaults. -/
def naValues : List String :=
  ["IAP", "IAP,DK,NA,uncodeable", "NOT SURE", "DK",
   "IAP, DK, NA, uncodeable", ".a", "CAN\x27T CHOOSE"]

/-- The default NA sentinels of read_csv, active because the call leaves
keep_default_na=True: these strings also become NaN on load. -/
def defaultNaValues : List String :=
  ["", "#N/A", "#N/A N/A", "#NA", "-1.#IND", "-1.#QNAN", "-NaN", "-nan",
   "1.#IND", "1.#QNAN", "<NA>", "N/A", "NA", "NULL", "NaN", "None",
   "n/a", "nan", "null"]

/-- read_csv na-value substitution for one raw string field: the configured
and the default sentinel strings become the missing marker, anything else is
kept as a string cell. -/
def naClean (s : String) : Cell :=
  if s ∈ naValues ∨ s ∈ defaultNaValues then Cell.missing else Cell.str s

/-- Numeric value of a list of decimal digit characters. -/
def natOfDigits (l : List Char) : ℕ :=
  l.foldl (fun n c => 10 * n + (c.toNat - 48)) 0

/-- Whitespace characters stripped by Python float() before parsing. -/
def isPyWs (c : Char) : Bool :=
  c = ' ' || c = '\t' || c = '\n' || c = '\r' || c = '\x0b' || c = '\x0c'

/-- Strip leading and trailing whitespace from a character list. -/
def stripWs (l : List Char) : List Char :=
  ((l.dropWhile isPyWs).reverse.dropWhile isPyWs).reverse

/-- No two adjacent underscores occur in the list. -/
def noDoubleUnderscore : List Char → Bool
  | '_' :: '_' :: _ => false
  | _ :: rest => noDoubleUnderscore rest
  | [] => true

/-- A digit part of a Python float literal: digits with single underscores
allowed between digits (so it starts and ends with a digit). -/
def validDigitPart (l : List Char) : Bool :=
  (match l with
   | [] => false
   | c :: _ => c.isDigit) &&
  (match l.getLast? with
   | some c => c.isDigit
   | none => false) &&
  l.all (fun c => c.isDigit || c = '_') &&
  noDoubleUnderscore l

/-- Numeric value of a digit part, ignoring its underscores. -/
def digitsVal (l : List Char) : ℕ := natOfDigits (l.filter Char.isDigit)

/-- Split a character list at the first separator character, keeping what
follows it when one is found. -/
def splitFirst (sep : Char → Bool) : List Char → List Char × Option (List Char)
  | [] => ([], none)
  | c :: rest =>
      if sep c then ([], some rest)
      else
        let p := splitFirst sep rest
        (c :: p.1, p.2)

/-- Parse the mantissa of a Python float literal: an integer part, an
optional dot and an optional fraction part, at least one digit part
present. -/
def parseMantissa (m : List Char) : Option ℚ :=
  let p := splitFirst (fun c => c = '.') m
  match p.2 with
  | none => if validDigitPart p.1 then some (digitsVal p.1 : ℚ) else none
  | some frac =>
      if (p.1.isEmpty || validDigitPart p.1) &&
          (frac.isEmpty || validDigitPart frac) &&
          !(p.1.isEmpty && frac.isEmpty) then
        some ((digitsVal p.1 : ℚ) +
          (digitsVal frac : ℚ) / (10 ^ (frac.filter Char.isDigit).length))
      else none

/-- Parse the exponent of a Python float literal: an optional sign and a
digit part. -/
def parseExp (e : List Char) : Option ℤ :=
  match e with
  | '+' :: rest => if validDigitPart rest then some (digitsVal rest) else none
  | '-' :: rest =>
      if validDigitPart rest then some (-(digitsVal rest : ℤ)) else none
  | _ => if validDigitPart e then some (digitsVal e) else none

/-- Parse an unsigned Python float numeric literal: a mantissa with an
optional e/E exponent. -/
def parseNum (body : List Char) : Option ℚ :=
  let p := splitFirst (fun c => c = 'e' || c = 'E') body
  match p.2 with
  | none => parseMantissa p.1
  | some ex =>
      match parseMantissa p.1, parseExp ex with
      | some m, some e => some (m * (10 : ℚ) ^ e)
      | _, _ => none

/-- A Python float value: a finite rational, a signed infinity or a nan. -/
inductive PyNum where
  | finite : ℚ → PyNum
  | posInf : PyNum
  | negInf : PyNum
  | nan : PyNum
deriving DecidableEq

/-- Python float() on a string: strip whitespace, take an optional sign,
then either a case-insensitive inf/infinity/nan word or a numeric literal
(digits with single underscores, optional fraction, optional exponent);
none when the string is not of this shape, which is when float() raises. -/
def pyFloat (s : String) : Option PyNum :=
  let t := stripWs s.toList
  let signed : Bool × List Char :=
    match t with
    | '-' :: rest => (true, rest)
    | '+' :: rest => (false, rest)
    | _ => (false, t)
  let low := signed.2.map Char.toLower
  if low = "inf".toList || low = "infinity".toList then
    some (if signed.1 then PyNum.negInf else PyNum.posInf)
  else if low = "nan".toList then some PyNum.nan
  else
    match parseNum signed.2 with
    | some x => some (PyNum.finite (if signed.1 then -x else x))
    | none => none

/-- The replace step of the age coercion (src/app.py line 38): any cell equal
to the string "89 or older" becomes the string "89". -/
def replaceAge : Cell → Cell
  | Cell.str s => Cell.str (if s = "89 or older" then "89" else s)
  | c => c

/-- The astype(float) step of the age coercion (src/app.py line 39): missing
stays missing, numbers pass through, strings are parsed as Python floats and
an unparseable string raises ValueError. -/
def astypeFloat : Cell → Except String (Option PyNum)
  | Cell.missing => Except.ok none
  | Cell.num x => Except.ok (some (PyNum.finite x))
  | Cell.str s =>
      match pyFloat s with
      | some x => Except.ok (some x)
      | none => Except.error "ValueError"

/-- The whole per-cell age coercion (src/app.py lines 38-39): replace the
"89 or older" sentinel, then convert to float. -/
def ageCoerce (c : Cell) : Except String (Option PyNum) :=
  astypeFloat (replaceAge c)

/-- The columns of gss_clean after the mycols selection and the rename
(src/app.py lines 20-37). -/
def gssColumns : List String :=
  ["id", "weight", "sex", "education", "region", "age", "income",
   "job_prestige", "mother_job_prestige", "father_job_prestige",
   "socioeconomic_index", "satjob", "relationship", "male_breadwinner",
   "men_bettersuited", "child_suffer", "men_overwork"]

/-- The in-memory Dataset (gss_clean): an ordered list of records, each
assigning a cell to every column name; the column set is the fixed
gssColumns list. -/
structure Dataset where
  rows : List (String → Cell)

/-- The rows kept by value_counts: pairs where neither cell is missing
(pandas value_counts drops NaN rows by default). -/
def presentPairs (pairs : List (Cell × Cell)) : List (Cell × Cell) :=
  pairs.filter fun p => !p.1.isMissing && !p.2.isMissing

/-- Occurrence counting of the distinct values of a list, sorted by count
descending: the frequency-table core of pandas value_counts. -/
def countSorted {α : Type} [DecidableEq α] (xs : List α) : List (α × ℕ) :=
  (xs.dedup.map fun v => (v, xs.count v)).mergeSort fun a b => decide (b.2 ≤ a.2)

/-- pandas DataFrame.value_counts on a two-column selection followed by
reset_index (src/app.py line 315): drop rows where either cell is missing,
count each distinct pair, and sort by count descending. -/
def value_counts (pairs : List (Cell × Cell)) : List ((Cell × Cell) × ℕ) :=
  countSorted (presentPairs pairs)

/-- The bar figure specification produced by user_bar: the frequency table
(one row per distinct pair with its count) together with the fixed layout
settings applied by px.bar and update_layout (src/app.py lines 316-335). -/
structure Figure where
  bars : List ((Cell × Cell) × ℕ)
  xColumn : String
  colorColumn : String
  yLabel : String
  barmode : String
  height : ℕ
  width : ℕ
  legendYAnchor : String
  legendY : ℚ
  legendXAnchor : String
  legendX : ℚ
  xaxisTitle : String
deriving DecidableEq

/-- The user_bar callback (src/app.py lines 314-335): select the two columns
of gss_clean (a KeyError when either name is not a column; when both names
are the same column the selection is duplicated and value_counts raises a
ValueError from its groupby on the duplicated label), run value_counts, and
build the grouped bar figure with the fixed layout settings. -/
def user_bar (ds : Dataset) (category question : String) :
    Except String Figure :=
  if category ∈ gssColumns ∧ question ∈ gssColumns then
    if category = question then Except.error "ValueError"
    else
      Except.ok
        ⟨value_counts (ds.rows.map fun r => (r category, r question)),
         category, question, "Frequency", "group", 400, 630,
         "top", 95 / 100, "right", 95 / 100, ""⟩
  else Except.error "KeyError"

/-- The question lookup table q inside the title callback
(src/app.py lines 296-302); an absent key is a KeyError (none). -/
def qDict (question : String) : Option String :=
  if question = "satjob" then
    some "On the whole, how satisfied are you with the work you do?"
  else if question = "relationship" then
    some "A working mother can establish just as warm and secure a relationship with her children as a mother who does not work."
  else if question = "male_breadwinner" then
    some "It is much better for everyone involved if the man is the achiever outside the home and the woman takes care of the home and family."
  else if question = "men_bettersuited" then
    some "Most men are better suited emotionally for politics than are most women."
  else if question = "child_suffer" then
    some "A preschool child is likely to suffer if his or her mother works."
  else if question = "men_overwork" then
    some "Family life often suffers because men concentrate too much on their work"
  else none

/-- The category lookup table c inside the title callback
(src/app.py lines 304-306); an absent key is a KeyError (none). -/
def cDict (category : String) : Option String :=
  if category = "sex" then some "sex"
  else if category = "education" then some "years of education"
  else if category = "region" then some "region"
  else none

/-- The title callback (src/app.py lines 295-308): both dict lookups, then
the f-string; a lookup miss surfaces as a KeyError. -/
def title (category question : String) : Except String String :=
  match qDict question, cDict category with
  | some qt, some cl => Except.ok ("\"" ++ qt ++ "\" by " ++ cl)
  | _, _ => Except.error "KeyError"

/-- The category dropdown values (src/app.py lines 175-177): the 3-element
category enum of the Selection State. -/
def categoryValues : List String := ["sex", "education", "region"]

/-- The question dropdown values (src/app.py lines 185-196): the 6-element
question enum of the Selection State. -/
def questionValues : List String :=
  ["satjob", "male_breadwinner", "relationship", "men_bettersuited",
   "child_suffer", "men_overwork"]

/-- One reactive update of the view binder: both callbacks fire on a
selection change and produce the title and the bar figure. -/
def render (ds : Dataset) (category question : String) :
    Except String String × Except String Figure :=
  (title category question, user_bar ds category question)

/-- Whether an Except value is an error (a raised exception). -/
def isErr {ε α : Type} : Except ε α → Bool
  | Except.error _ => true
  | Except.ok _ => false

/-- A one-row sample Dataset used as a concrete input in witnesses. -/
def sampleDS : Dataset :=
  ⟨[fun col =>
      if col = "sex" then Cell.str "male"
      else if col = "satjob" then Cell.str "very satisfied"
      else Cell.missing]⟩

/-- The three dropdown category values are all columns of gss_clean. -/
lemma catValues_sub {c : String} (hc : c ∈ categoryValues) : c ∈ gssColumns := by
  fin_cases hc <;> decide

/-- The six dropdown question values are all columns of gss_clean. -/
lemma qValues_sub {q : String} (hq : q ∈ questionValues) : q ∈ gssColumns := by
  fin_cases hq <;> decide

/-- The category enum and the question enum are disjoint, so a valid pair
never selects a duplicated column. -/
lemma cat_ne_question {c q : String} (hc : c ∈ categoryValues)
    (hq : q ∈ questionValues) : c ≠ q := by
  fin_cases hc <;> fin_cases hq <;> decide

/-- Projecting two columns out of the rows and dropping missing pairs is the
same as dropping the rows with a missing cell first and projecting after. -/
lemma presentPairs_map (rows : List (String → Cell)) (c q : String) :
    presentPairs (rows.map fun r => (r c, r q)) =
      (rows.filter fun r => !(r c).isMissing && !(r q).isMissing).map
        fun r => (r c, r q) := by
  unfold presentPairs
  rw [List.filter_map]
  rfl

/-- The counts in a frequency table add up to the length of the counted
list. -/
lemma countSorted_sum {α : Type} [DecidableEq α] (xs : List α) :
    ((countSorted xs).map fun b => b.2).sum = xs.length := by
  unfold countSorted
  have h1 := (List.mergeSort_perm (xs.dedup.map fun v => (v, xs.count v))
    (fun a b => decide (b.2 ≤ a.2))).map (fun b : α × ℕ => b.2)
  rw [h1.sum_eq, List.map_map]
  have h2 : ((fun b : α × ℕ => b.2) ∘ fun v => (v, xs.count v)) =
      fun v => xs.count v := rfl
  rw [h2]
  exact List.sum_map_count_dedup_eq_length xs

/-- A middle factor of a string concatenation is an infix of its character
list. -/
lemma toList_infix_of_eq (s a m b : String) (h : s = a ++ m ++ b) :
    m.toList <:+: s.toList := by
  subst h
  exact ⟨a.toList, b.toList, by simp [String.toList, String.data_append]⟩

/-- A question identifier outside the six dropdown values misses the q
lookup table. -/
lemma qDict_eq_none {q : String} (h : q ∉ questionValues) : qDict q = none := by
  simp only [questionValues, List.mem_cons, List.not_mem_nil, or_false,
    not_or] at h
  obtain ⟨h1, h2, h3, h4, h5, h6⟩ := h
  simp [qDict, h1, h2, h3, h4, h5, h6]

/-- A category identifier outside the three dropdown values misses the c
lookup table. -/
lemma cDict_eq_none {c : String} (h : c ∉ categoryValues) : cDict c = none := by
  simp only [categoryValues, List.mem_cons, List.not_mem_nil, or_false,
    not_or] at h
  obtain ⟨h1, h2, h3⟩ := h
  simp [cDict, h1, h2, h3]

/-- Claim C1: for every valid (category, question) pair, user_bar succeeds
and the sum of the counts in its frequency table equals the number of
Dataset records whose cells for both selected columns are non-missing. -/
theorem user_bar_count_sum (ds : Dataset) (c q : String)
    (hc : c ∈ categoryValues) (hq : q ∈ questionValues) :
    (user_bar ds c q).map (fun fig => (fig.bars.map fun b => b.2).sum) =
      Except.ok ((ds.rows.filter fun r =>
        !(r c).isMissing && !(r q).isMissing).length) := by
  have hcc : c ∈ gssColumns := catValues_sub hc
  have hqc : q ∈ gssColumns := qValues_sub hq
  unfold user_bar
  rw [if_pos ⟨hcc, hqc⟩, if_neg (cat_ne_question hc hq)]
  show Except.ok (((value_counts (ds.rows.map fun r => (r c, r q))).map
    fun b => b.2).sum) = _
  unfold value_counts
  rw [countSorted_sum, presentPairs_map, List.length_map]

/-- Witness for C1: the count-sum equation instantiated at the one-row
sample Dataset with the default selection (sex, satjob). -/
theorem user_bar_count_sum_w :
    ("sex" ∈ categoryValues) ∧ ("satjob" ∈ questionValues) ∧
    (user_bar sampleDS "sex" "satjob").map
        (fun fig => (fig.bars.map fun b => b.2).sum) =
      Except.ok ((sampleDS.rows.filter fun r =>
        !(r "sex").isMissing && !(r "satjob").isMissing).length) :=
  ⟨by decide, by decide,
   user_bar_count_sum sampleDS "sex" "satjob" (by decide) (by decide)⟩

/-- Claim C2: for every valid (category, question) pair, both lookups hit,
title returns exactly the string quote, question text, quote, " by ",
category label; that string is non-empty and contains the exact question
text and the exact category label as substrings. -/
theorem title_ok (c q : String)
    (hc : c ∈ categoryValues) (hq : q ∈ questionValues) :
    (qDict q).isSome = true ∧ (cDict c).isSome = true ∧
    title c q = Except.ok
      ("\"" ++ (qDict q).getD "" ++ "\" by " ++ (cDict c).getD "") ∧
    "\"" ++ (qDict q).getD "" ++ "\" by " ++ (cDict c).getD "" ≠ "" ∧
    ((qDict q).getD "").toList <:+:
      ("\"" ++ (qDict q).getD "" ++ "\" by " ++ (cDict c).getD "").toList ∧
    ((cDict c).getD "").toList <:+:
      ("\"" ++ (qDict q).getD "" ++ "\" by " ++ (cDict c).getD "").toList := by
  have hqs : (qDict q).isSome = true := by fin_cases hq <;> rfl
  have hcs : (cDict c).isSome = true := by fin_cases hc <;> rfl
  obtain ⟨qt, hqt⟩ := Option.isSome_iff_exists.mp hqs
  obtain ⟨cl, hct⟩ := Option.isSome_iff_exists.mp hcs
  rw [hqt, hct]
  simp only [Option.getD_some]
  refine ⟨rfl, rfl, ?_, ?_, ?_, ?_⟩
  · simp [title, hqt, hct]
  · intro h
    have h2 := congrArg String.length h
    simp only [String.length_append] at h2
    have h3 : ("\"" : String).length = 1 := rfl
    have h4 : ("\" by " : String).length = 5 := rfl
    have h5 : ("" : String).length = 0 := rfl
    rw [h3, h4, h5] at h2
    omega
  · exact toList_infix_of_eq _ "\"" _ ("\" by " ++ cl) (String.append_assoc _ _ _)
  · exact toList_infix_of_eq _ ("\"" ++ qt ++ "\" by ") _ ""
      (String.append_empty _).symm

/-- Witness for C2: the title contract instantiated at the default
selection (sex, satjob). -/
theorem title_ok_w :
    (qDict "satjob").isSome = true ∧ (cDict "sex").isSome = true ∧
    title "sex" "satjob" = Except.ok
      ("\"" ++ (qDict "satjob").getD "" ++ "\" by " ++ (cDict "sex").getD "") ∧
    "\"" ++ (qDict "satjob").getD "" ++ "\" by " ++ (cDict "sex").getD "" ≠ "" ∧
    ((qDict "satjob").getD "").toList <:+:
      ("\"" ++ (qDict "satjob").getD "" ++ "\" by " ++
        (cDict "sex").getD "").toList ∧
    ((cDict "sex").getD "").toList <:+:
      ("\"" ++ (qDict "satjob").getD "" ++ "\" by " ++
        (cDict "sex").getD "").toList :=
  title_ok "sex" "satjob" (by decide) (by decide)

/-- Claim C3: for category sex and question satjob, title returns exactly
the string quote, On the whole how satisfied are you with the work you do?,
quote, " by sex". -/
theorem title_sex_satjob :
    title "sex" "satjob" =
      Except.ok "\"On the whole, how satisfied are you with the work you do?\" by sex" := by
  decide

/-- Counterexample to C4 as stated: the age string "unknown" is not
convertible to a number, is not a configured na sentinel, and the age
coercion raises a ValueError on it instead of substituting the missing
marker. -/
theorem age_coercion_raises_cex :
    ageCoerce (naClean "unknown") = Except.error "ValueError" := by decide

/-- Claim C4 amended: an age value in the configured na_values sentinel
list or in read_csv's default NA sentinel list becomes the explicit missing
marker (so the coercion returns it as missing), while any other age string
that Python float() cannot parse after the "89 or older" replacement makes
the coercion raise a ValueError rather than substituting a missing
marker. -/
theorem age_sentinels_and_raises :
    (∀ s : String, s ∈ naValues ∨ s ∈ defaultNaValues →
      ageCoerce (naClean s) = Except.ok none) ∧
    (∀ s : String, s ∉ naValues → s ∉ defaultNaValues →
      pyFloat (if s = "89 or older" then "89" else s) = none →
      ageCoerce (naClean s) = Except.error "ValueError") := by
  constructor
  · intro s hs
    unfold naClean
    rw [if_pos hs]
    rfl
  · intro s hs1 hs2 hp
    unfold naClean
    rw [if_neg (by simp [hs1, hs2])]
    simp [ageCoerce, replaceAge, astypeFloat, hp]

/-- Witness for the amended C4: the configured sentinel "DK" becomes missing
and the unparseable non-sentinel "unknown" raises. -/
theorem age_sentinels_and_raises_w :
    ageCoerce (naClean "DK") = Except.ok none ∧
    ageCoerce (naClean "unknown") = Except.error "ValueError" :=
  ⟨age_sentinels_and_raises.1 "DK" (Or.inl (by decide)),
   age_sentinels_and_raises.2 "unknown" (by decide) (by decide) (by decide)⟩

/-- Claim C5: the literal age string "89 or older" is converted to the
numeric value 89 by the dataset preparation. -/
theorem age_89_sentinel :
    ageCoerce (naClean "89 or older") = Except.ok (some (PyNum.finite 89)) := by
  decide

/-- Counterexample to C6 as stated: "age" is outside the category enum, yet
user_bar does not fail on it because "age" is a column of gss_clean; it
returns a figure normally. -/
theorem user_bar_out_of_enum_cex :
    "age" ∉ categoryValues ∧ "satjob" ∈ questionValues ∧
    isErr (user_bar ⟨[]⟩ "age" "satjob") = false :=
  ⟨by decide, by decide, rfl⟩

/-- Claim C6 amended: for any input pair with the category or the question
outside its enum, title fails with a KeyError and returns no fallback;
user_bar, however, fails exactly when the category or the question is not a
column of gss_clean or the two select the same column, so out-of-enum
inputs that are distinct columns succeed. -/
theorem selection_errors :
    (∀ c q : String, c ∉ categoryValues ∨ q ∉ questionValues →
      isErr (title c q) = true) ∧
    (∀ (ds : Dataset) (c q : String),
      isErr (user_bar ds c q) = true ↔
        (c ∉ gssColumns ∨ q ∉ gssColumns ∨ c = q)) := by
  constructor
  · intro c q h
    rcases h with h | h
    · have hc := cDict_eq_none h
      rcases hqd : qDict q with _ | qt <;> simp [title, hqd, hc, isErr]
    · have hq := qDict_eq_none h
      rcases hcd : cDict c with _ | cl <;> simp [title, hq, hcd, isErr]
  · intro ds c q
    unfold user_bar
    split
    · rename_i hcq
      split
      · rename_i he
        simp [isErr, he]
      · rename_i he
        simp [isErr, hcq.1, hcq.2, he]
    · rename_i hcq
      simp only [isErr, true_iff]
      rcases not_and_or.mp hcq with h | h
      · exact Or.inl h
      · exact Or.inr (Or.inl h)

/-- Witness for the amended C6: title raises on the out-of-enum category
"age"; user_bar raises on a name that is not a column at all and on the
duplicated selection sex, sex. -/
theorem selection_errors_w :
    isErr (title "age" "satjob") = true ∧
    isErr (user_bar ⟨[]⟩ "not_a_column" "satjob") = true ∧
    isErr (user_bar ⟨[]⟩ "sex" "sex") = true :=
  ⟨selection_errors.1 "age" "satjob" (Or.inl (by decide)),
   (selection_errors.2 ⟨[]⟩ "not_a_column" "satjob").mpr (Or.inl (by decide)),
   (selection_errors.2 ⟨[]⟩ "sex" "sex").mpr (Or.inr (Or.inr rfl))⟩

/-- Claim C7: for every valid (category, question) pair, a Dataset with no
record having both cells non-missing makes user_bar return normally with an
empty frequency table. -/
theorem user_bar_zero (ds : Dataset) (c q : String)
    (hc : c ∈ categoryValues) (hq : q ∈ questionValues)
    (h0 : ds.rows.filter (fun r => !(r c).isMissing && !(r q).isMissing) = []) :
    (user_bar ds c q).map Figure.bars = Except.ok [] := by
  have hcc : c ∈ gssColumns := catValues_sub hc
  have hqc : q ∈ gssColumns := qValues_sub hq
  unfold user_bar
  rw [if_pos ⟨hcc, hqc⟩, if_neg (cat_ne_question hc hq)]
  show Except.ok (value_counts (ds.rows.map fun r => (r c, r q))) = _
  refine congrArg Except.ok ?_
  unfold value_counts countSorted
  rw [presentPairs_map, h0]
  simp

/-- Witness for C7: the empty Dataset yields an empty frequency table for
the default selection (sex, satjob). -/
theorem user_bar_zero_w :
    (user_bar ⟨[]⟩ "sex" "satjob").map Figure.bars = Except.ok [] :=
  user_bar_zero ⟨[]⟩ "sex" "satjob" (by decide) (by decide) rfl

/-- Claim C8: with the question held at satjob, switching the category from
sex to region changes only the category label part of the title; the
question text part is the same lookup entry in both outputs, and the two
category labels differ. -/
theorem title_category_switch :
    ∃ qt l1 l2 : String,
      qDict "satjob" = some qt ∧ cDict "sex" = some l1 ∧
      cDict "region" = some l2 ∧
      title "sex" "satjob" = Except.ok ("\"" ++ qt ++ "\" by " ++ l1) ∧
      title "region" "satjob" = Except.ok ("\"" ++ qt ++ "\" by " ++ l2) ∧
      l1 ≠ l2 :=
  ⟨_, _, _, rfl, rfl, rfl, by decide, by decide, by decide⟩

/-- Claim C9: user_bar is deterministic: two invocations with the same
selection and an unchanged Dataset produce structurally identical figures,
bars order included. -/
theorem user_bar_deterministic (ds ds' : Dataset) (c c' q q' : String)
    (h1 : ds = ds') (h2 : c = c') (h3 : q = q') :
    user_bar ds c q = user_bar ds' c' q' := by
  subst h1
  subst h2
  subst h3
  rfl

/-- Witness for C9: two invocations on the sample Dataset with the default
selection coincide. -/
theorem user_bar_deterministic_w :
    sampleDS = sampleDS ∧
    user_bar sampleDS "sex" "satjob" = user_bar sampleDS "sex" "satjob" :=
  ⟨rfl, user_bar_deterministic sampleDS sampleDS "sex" "sex" "satjob" "satjob"
    rfl rfl rfl⟩

/-- Claim C10: the title half of a reactive update is independent of the
Dataset: any two Dataset contents give the same title output for the same
selection. -/
theorem title_dataset_independent (ds1 ds2 : Dataset) (c q : String) :
    (render ds1 c q).1 = (render ds2 c q).1 := rfl

end GSS
